import Mathlib

/-!
Verification of the `GroupEstimate` categorical group-based estimator
(`src/apputil.py`): a shallow embedding of its `fit` and `predict`
procedures, followed by theorems settling the specification claims.

Modelling conventions:
* A pandas `DataFrame` of categorical columns is a `Frame`: an ordered
  list of column names plus rows stored positionally (row `r` holds the
  value of column `cols[j]` at position `j`).
* Categorical values are `String`s; numeric targets and estimates are `ℚ`
  (the Python code stores `float(val)`; exact rationals model the
  arithmetic of `np.mean` / `np.median` without rounding).
* A Python `dict` is an association list built with distinct keys;
  `lookupA` models `in` / `[]` access.
* A raised `ValueError` in `fit` is modelled by returning the estimator
  state as mutated so far together with `some errorMessage` (Python
  exceptions do not roll back attribute assignments already made);
  `predict` raises before any mutation, so it returns `Except`.
* `predict`'s printed diagnostic is modelled as an `Option String`
  returned alongside the per-row results; a `NaN` result cell is `none`.
-/

/-- A labelled data frame: ordered column names and positional rows. -/
structure Frame where
  cols : List String
  rows : List (List String)
  deriving DecidableEq

/-- Value of `row` at column `c`, where `frameCols` labels the positions
(pandas name-based access `row[c]`); defaults to `""` when `c` is absent,
a case never reached on the validated paths. -/
def valueAt (frameCols : List String) (row : List String) (c : String) : String :=
  row.getD (frameCols.indexOf c) ""

/-- The group key of a row: the ordered tuple of its values at `cols`
(line 91 of the source: `tuple(row[col] for col in self._cols)`). -/
def keyOf (cols frameCols : List String) (row : List String) : List String :=
  cols.map (valueAt frameCols row)

/-- Association-list lookup modelling Python `dict` access. -/
def lookupA {α : Type} [DecidableEq α] (k : α) : List (α × ℚ) → Option ℚ
  | [] => none
  | (k2, v) :: rest => if k2 = k then some v else lookupA k rest

/-- Arithmetic mean of a list of rationals (`np.mean`). -/
def mean (l : List ℚ) : ℚ := l.sum / l.length

/-- Insert into a sorted list, keeping it sorted. -/
def insertSorted (x : ℚ) : List ℚ → List ℚ
  | [] => [x]
  | y :: ys => if x ≤ y then x :: y :: ys else y :: insertSorted x ys

/-- Insertion sort of rationals, ascending. -/
def sortQ : List ℚ → List ℚ
  | [] => []
  | x :: xs => insertSorted x (sortQ xs)

/-- Standard median (`np.median`): middle element of the sorted list for
odd count, average of the two middle elements for even count. -/
def median (l : List ℚ) : ℚ :=
  let s := sortQ l
  let n := s.length
  if n = 0 then 0
  else if n % 2 = 1 then s.getD (n / 2) 0
  else (s.getD (n / 2 - 1) 0 + s.getD (n / 2) 0) / 2

/-- The configured aggregate: `np.mean` when `estimate == "mean"`, else
`np.median` (line 36 of the source). -/
def agg (est : String) (l : List ℚ) : ℚ := if est = "mean" then mean l else median l

/-- Target values of exactly the training rows whose full group key is `k`
(the group formed by `groupby(self._cols)`). -/
def groupTargets (X : Frame) (y : List ℚ) (k : List String) : List ℚ :=
  ((X.rows.zip y).filter (fun p => keyOf X.cols X.cols p.1 = k)).map (fun p => p.2)

/-- The group lookup table built at fit time: one entry per distinct full
group key occurring in the training rows, holding the configured aggregate
of that group's targets (lines 35-45 of the source). -/
def buildGroupMap (est : String) (X : Frame) (y : List ℚ) : List (List String × ℚ) :=
  ((X.rows.map (keyOf X.cols X.cols)).dedup).map
    (fun k => (k, agg est (groupTargets X y k)))

/-- Target values of exactly the training rows whose value in column `dc`
is `v` (the group formed by `groupby(default_category)`). -/
def defaultTargets (X : Frame) (y : List ℚ) (dc : String) (v : String) : List ℚ :=
  ((X.rows.zip y).filter (fun p => valueAt X.cols p.1 dc = v)).map (fun p => p.2)

/-- The default (single-column fallback) lookup table (lines 54-57). -/
def buildDefaultMap (est : String) (X : Frame) (y : List ℚ) (dc : String) :
    List (String × ℚ) :=
  ((X.rows.map (fun r => valueAt X.cols r dc)).dedup).map
    (fun v => (v, agg est (defaultTargets X y dc v)))

/-- The estimator's state: the configured aggregate kind plus the four
attributes set by `__init__` / `fit` (`_group_map`, `_cols`,
`_default_category`, `_default_map`), each `None` before a first fit. -/
structure GroupEstimate where
  estimate : String
  group_map : Option (List (List String × ℚ))
  cols : Option (List String)
  default_category : Option String
  default_map : Option (List (String × ℚ))
  deriving DecidableEq

/-- `GroupEstimate.fit` (lines 14-62 of the source). Returns the estimator
state after the call together with `some message` when a `ValueError` was
raised (`none` on success). Attribute assignments made before a raise are
kept, exactly as in Python: `_cols`, `_default_category` and `_group_map`
are written before the `default_category` membership check. -/
def GroupEstimate.fit (self : GroupEstimate) (X : Frame) (y : List ℚ)
    (default_category : Option String) : GroupEstimate × Option String :=
  if X.rows.length ≠ y.length then
    (self, some "X and y must have the same length")
  else
    let s1 : GroupEstimate :=
      { self with cols := some X.cols, default_category := default_category,
                  group_map := some (buildGroupMap self.estimate X y) }
    match default_category with
    | some dc =>
      if dc ∈ X.cols then
        ({ s1 with default_map := some (buildDefaultMap self.estimate X y dc) }, none)
      else (s1, some "default_category must be one of the columns in X")
    | none => ({ s1 with default_map := none }, none)

/-- Column reconciliation of a labelled query frame against the fitted
columns (lines 74-82): identical order is accepted as-is; the same column
set in another order is reordered by name; any other column set raises. -/
def reconcile (cols : List String) (Xq : Frame) : Except String Frame :=
  if Xq.cols = cols then .ok Xq
  else if (∀ c ∈ Xq.cols, c ∈ cols) ∧ (∀ c ∈ cols, c ∈ Xq.cols) then
    .ok ⟨cols, Xq.rows.map (fun r => cols.map (valueAt Xq.cols r))⟩
  else .error "Predict input columns must match the columns used in fit"

/-- Resolution of a single (reconciled) query row (lines 90-106): group
lookup first, then the default-column fallback, else the `NaN` marker,
modelled as `none`. -/
def resolveRow (gmap : List (List String × ℚ)) (dmap : Option (List (String × ℚ)))
    (dcat : Option String) (cols : List String) (row : List String) : Option ℚ :=
  match lookupA (keyOf cols cols row) gmap with
  | some v => some v
  | none =>
    match dmap with
    | some dm => lookupA (valueAt cols row (dcat.getD "")) dm
    | none => none

/-- The diagnostic line printed when `missing_count > 0` (line 109). -/
def missingMessage (n : Nat) : String :=
  toString n ++ " missing groups were not present in the training data."

/-- `GroupEstimate.predict` (lines 64-111) on a labelled query frame.
Returns the per-row results (one `Option ℚ` per query row, `none` for the
`NaN` marker) paired with the printed diagnostic (`none` when no row was
missing), or the raised `ValueError`'s message. -/
def GroupEstimate.predict (self : GroupEstimate) (Xq : Frame) :
    Except String (List (Option ℚ) × Option String) :=
  match self.group_map, self.cols with
  | some gmap, some cols =>
    match reconcile cols Xq with
    | .error e => .error e
    | .ok Xp =>
      let results := Xp.rows.map (resolveRow gmap self.default_map self.default_category cols)
      let missing := (results.filter (fun r => r.isNone)).length
      .ok (results, if 0 < missing then some (missingMessage missing) else none)
  | _, _ => .error "Model has not been fitted. Call fit(X, y) before predict()."

/-! ## Helper lemmas -/

/-- A successful `fit` records the training columns, the requested default
category, and the freshly built group lookup table, keeping the configured
aggregate kind. -/
theorem fit_ok_state (e e' : GroupEstimate) (X : Frame) (y : List ℚ) (dc : Option String)
    (h : GroupEstimate.fit e X y dc = (e', none)) :
    e'.estimate = e.estimate ∧ e'.cols = some X.cols ∧ e'.default_category = dc ∧
      e'.group_map = some (buildGroupMap e.estimate X y) := by
  unfold GroupEstimate.fit at h
  split at h
  · simp only [Prod.mk.injEq] at h
    exact absurd h.2 (by simp)
  · split at h
    · split at h
      · simp only [Prod.mk.injEq] at h
        rw [← h.1]
        simp
      · simp only [Prod.mk.injEq] at h
        exact absurd h.2 (by simp)
    · simp only [Prod.mk.injEq] at h
      rw [← h.1]
      simp

/-- Every entry of the built group lookup table comes from at least one
training row and stores the configured aggregate of its group's targets. -/
theorem mem_buildGroupMap (est : String) (X : Frame) (y : List ℚ)
    (k : List String) (v : ℚ) (h : (k, v) ∈ buildGroupMap est X y) :
    (∃ row ∈ X.rows, keyOf X.cols X.cols row = k) ∧ v = agg est (groupTargets X y k) := by
  unfold buildGroupMap at h
  obtain ⟨k0, hk0, heq⟩ := List.mem_map.mp h
  obtain ⟨hk, hv⟩ := Prod.mk.injEq .. ▸ heq
  subst hk
  refine ⟨?_, hv.symm⟩
  have : k0 ∈ X.rows.map (keyOf X.cols X.cols) := List.mem_dedup.mp hk0
  obtain ⟨row, hrow, hkey⟩ := List.mem_map.mp this
  exact ⟨row, hrow, hkey⟩

/-- Column reconciliation never fails into a frame with the wrong columns:
on success the resulting frame carries exactly the fitted columns. -/
theorem reconcile_ok_cols (cols : List String) (Xq Xp : Frame)
    (h : reconcile cols Xq = .ok Xp) : Xp.cols = cols := by
  unfold reconcile at h
  split at h
  · cases h
    assumption
  · split at h
    · cases h
      rfl
    · cases h

/-- Column reconciliation preserves the number of rows. -/
theorem reconcile_ok_length (cols : List String) (Xq Xp : Frame)
    (h : reconcile cols Xq = .ok Xp) : Xp.rows.length = Xq.rows.length := by
  unfold reconcile at h
  split at h
  · cases h
    rfl
  · split at h
    · cases h
      simp
    · cases h

/-- Inversion of a successful `predict`: the estimator was fitted, the
query reconciled, the results are the row-wise resolutions in order, and
the diagnostic is determined by the number of missing rows. -/
theorem predict_ok_state (e : GroupEstimate) (Xq : Frame)
    (res : List (Option ℚ)) (msg : Option String)
    (h : GroupEstimate.predict e Xq = .ok (res, msg)) :
    ∃ gmap cols Xp, e.group_map = some gmap ∧ e.cols = some cols ∧
      reconcile cols Xq = .ok Xp ∧
      res = Xp.rows.map (resolveRow gmap e.default_map e.default_category cols) ∧
      msg = (if 0 < (res.filter (fun r => r.isNone)).length
             then some (missingMessage (res.filter (fun r => r.isNone)).length)
             else none) := by
  unfold GroupEstimate.predict at h
  split at h
  case _ gmap cols hg hc =>
    split at h
    · cases h
    case _ Xp hrec =>
      simp only [Except.ok.injEq, Prod.mk.injEq] at h
      refine ⟨gmap, cols, Xp, hg, hc, hrec, h.1.symm, ?_⟩
      rw [← h.2, ← h.1]
  · cases h

/-- Sanity check of the embedding against the spec's example scenario:
fitting rows `A, A, B` with targets `10, 20, 5` under `"mean"` stores
`15.0` for key `("A",)` and `5.0` for key `("B",)`. -/
theorem fit_mean_example :
    (GroupEstimate.fit ⟨"mean", none, none, none, none⟩
      ⟨["city"], [["A"], ["A"], ["B"]]⟩ [10, 20, 5] none).1.group_map =
      some [(["A"], 15), (["B"], 5)] := by
  norm_num +decide [GroupEstimate.fit, buildGroupMap, groupTargets, keyOf, valueAt, agg, mean,
    List.dedup, List.pwFilter]

/-- Sanity check of the median aggregate: an even-count group averages the
two middle values (`median [4, 1, 3, 2] = 5/2`, as `np.median` computes). -/
theorem fit_median_example :
    (GroupEstimate.fit ⟨"median", none, none, none, none⟩
      ⟨["city"], [["A"], ["A"], ["A"], ["A"], ["B"]]⟩ [4, 1, 3, 2, 5] none).1.group_map =
      some [(["A"], 5/2), (["B"], 5)] := by
  norm_num +decide [GroupEstimate.fit, buildGroupMap, groupTargets, keyOf, valueAt, agg, median,
    sortQ, insertSorted, List.dedup, List.pwFilter]

/-! ## Claim theorems -/

/-- C2: for every successful fit, every key present in the group lookup
table is the key of at least one training row, and the value stored for it
equals the configured aggregate over exactly the target values of the rows
mapping to that key — the arithmetic mean when `estimate` is `"mean"`, the
standard median when `estimate` is `"median"`. -/
theorem C2_group_lookup_values (e e' : GroupEstimate) (X : Frame) (y : List ℚ)
    (dc : Option String) (gmap : List (List String × ℚ)) (k : List String) (v : ℚ)
    (hfit : GroupEstimate.fit e X y dc = (e', none))
    (hg : e'.group_map = some gmap) (hkv : (k, v) ∈ gmap) :
    (∃ row ∈ X.rows, keyOf X.cols X.cols row = k) ∧
      (e.estimate = "mean" → v = mean (groupTargets X y k)) ∧
      (e.estimate = "median" → v = median (groupTargets X y k)) := by
  obtain ⟨-, -, -, hmap⟩ := fit_ok_state e e' X y dc hfit
  rw [hg] at hmap
  have hgm : gmap = buildGroupMap e.estimate X y := Option.some.inj hmap
  rw [hgm] at hkv
  obtain ⟨hrow, hv⟩ := mem_buildGroupMap e.estimate X y k v hkv
  refine ⟨hrow, ?_, ?_⟩
  · intro hm
    rw [hv, agg, if_pos hm]
  · intro hm
    rw [hv, agg, if_neg (by rw [hm]; decide)]

/-- C2 witness: the spec's example scenario — fitting the single column
`city` on rows `A, A, B` with targets `10, 20, 5` under `"mean"` stores for
key `("A",)` the mean of exactly `10` and `20`. -/
theorem C2_group_lookup_values_witness :
    (GroupEstimate.fit ⟨"mean", none, none, none, none⟩
        ⟨["city"], [["A"], ["A"], ["B"]]⟩ [10, 20, 5] none =
      (⟨"mean", some (buildGroupMap "mean" ⟨["city"], [["A"], ["A"], ["B"]]⟩ [10, 20, 5]),
        some ["city"], none, none⟩, none)) ∧
    ((∃ row ∈ (⟨["city"], [["A"], ["A"], ["B"]]⟩ : Frame).rows,
        keyOf ["city"] ["city"] row = ["A"]) ∧
      ("mean" = "mean" →
        agg "mean" (groupTargets ⟨["city"], [["A"], ["A"], ["B"]]⟩ [10, 20, 5] ["A"]) =
          mean (groupTargets ⟨["city"], [["A"], ["A"], ["B"]]⟩ [10, 20, 5] ["A"])) ∧
      ("mean" = "median" →
        agg "mean" (groupTargets ⟨["city"], [["A"], ["A"], ["B"]]⟩ [10, 20, 5] ["A"]) =
          median (groupTargets ⟨["city"], [["A"], ["A"], ["B"]]⟩ [10, 20, 5] ["A"]))) :=
  ⟨rfl,
    C2_group_lookup_values ⟨"mean", none, none, none, none⟩ _ _ _ none _ ["A"] _ rfl rfl
      (by simp +decide [buildGroupMap, keyOf, valueAt, List.dedup, List.pwFilter])⟩

/-- C7: `fit` on a training frame and target vector of different lengths
fails with the shape-mismatch error and builds no lookup tables — the
estimator state is returned exactly as it was. -/
theorem C7_shape_mismatch (e : GroupEstimate) (X : Frame) (y : List ℚ)
    (dc : Option String) (h : X.rows.length ≠ y.length) :
    GroupEstimate.fit e X y dc = (e, some "X and y must have the same length") := by
  unfold GroupEstimate.fit
  rw [if_pos h]

/-- C7 witness: three training rows against two target values. -/
theorem C7_shape_mismatch_witness :
    ((⟨["c"], [["A"], ["B"], ["C"]]⟩ : Frame).rows.length ≠ ([1, 2] : List ℚ).length) ∧
    GroupEstimate.fit ⟨"mean", none, none, none, none⟩
        ⟨["c"], [["A"], ["B"], ["C"]]⟩ [1, 2] none =
      (⟨"mean", none, none, none, none⟩, some "X and y must have the same length") :=
  ⟨by decide,
    C7_shape_mismatch ⟨"mean", none, none, none, none⟩ ⟨["c"], [["A"], ["B"], ["C"]]⟩
      [1, 2] none (by decide)⟩

/-- C9: on a fitted estimator, a labelled query frame whose column set is
not equal to the fitted column set (extra, missing, or renamed columns)
makes `predict` fail with the schema-mismatch error, returning no per-row
results. -/
theorem C9_schema_mismatch (e : GroupEstimate) (gmap : List (List String × ℚ))
    (cols : List String) (Xq : Frame)
    (hg : e.group_map = some gmap) (hc : e.cols = some cols)
    (hne : ¬ ((∀ c ∈ Xq.cols, c ∈ cols) ∧ (∀ c ∈ cols, c ∈ Xq.cols))) :
    GroupEstimate.predict e Xq =
      .error "Predict input columns must match the columns used in fit" := by
  have hlist : Xq.cols ≠ cols := by
    intro hEq
    exact hne (by rw [hEq]; exact ⟨fun c hc2 => hc2, fun c hc2 => hc2⟩)
  have hrec : reconcile cols Xq =
      .error "Predict input columns must match the columns used in fit" := by
    unfold reconcile
    rw [if_neg hlist, if_neg hne]
  unfold GroupEstimate.predict
  rw [hg, hc]
  simp only [hrec]

/-- C9 witness: an estimator fitted on column `city` queried with a frame
labelled `country`. -/
theorem C9_schema_mismatch_witness :
    ((⟨"mean", some [(["A"], 1)], some ["city"], none, none⟩ : GroupEstimate).group_map =
        some [(["A"], 1)]) ∧
    ((⟨"mean", some [(["A"], 1)], some ["city"], none, none⟩ : GroupEstimate).cols =
        some ["city"]) ∧
    (¬ ((∀ c ∈ (⟨["country"], [["A"]]⟩ : Frame).cols, c ∈ ["city"]) ∧
        (∀ c ∈ ["city"], c ∈ (⟨["country"], [["A"]]⟩ : Frame).cols))) ∧
    GroupEstimate.predict ⟨"mean", some [(["A"], 1)], some ["city"], none, none⟩
        ⟨["country"], [["A"]]⟩ =
      .error "Predict input columns must match the columns used in fit" :=
  ⟨rfl, rfl, by decide,
    C9_schema_mismatch ⟨"mean", some [(["A"], 1)], some ["city"], none, none⟩
      [(["A"], 1)] ["city"] ⟨["country"], [["A"]]⟩ rfl rfl (by decide)⟩

/-- C10: after every successful fit, every key of the group lookup table
is a tuple whose length equals the number of fitted grouping columns (a
1-tuple per key in the single-column case), and every stored estimate in
the group and default lookup tables is a number — captured here by the
tables' numeric (ℚ) codomain, with the key-length invariant proved. -/
theorem C10_key_length_invariant (e e' : GroupEstimate) (X : Frame) (y : List ℚ)
    (dc : Option String) (gmap : List (List String × ℚ))
    (hfit : GroupEstimate.fit e X y dc = (e', none))
    (hg : e'.group_map = some gmap) :
    e'.cols = some X.cols ∧ ∀ kv ∈ gmap, kv.1.length = X.cols.length := by
  obtain ⟨-, hcols, -, hmap⟩ := fit_ok_state e e' X y dc hfit
  refine ⟨hcols, ?_⟩
  intro kv hkv
  rw [hg] at hmap
  have hgm : gmap = buildGroupMap e.estimate X y := Option.some.inj hmap
  have hkv2 : kv ∈ buildGroupMap e.estimate X y := hgm ▸ hkv
  unfold buildGroupMap at hkv2
  obtain ⟨k0, hk0, heq⟩ := List.mem_map.mp hkv2
  have hk0mem : k0 ∈ X.rows.map (keyOf X.cols X.cols) := List.mem_dedup.mp hk0
  obtain ⟨row, -, hkey⟩ := List.mem_map.mp hk0mem
  rw [← heq]
  simp only
  rw [← hkey]
  unfold keyOf
  exact List.length_map _ _

/-- C10 witness: a two-column fit yields keys of length two. -/
theorem C10_key_length_invariant_witness :
    (GroupEstimate.fit ⟨"mean", none, none, none, none⟩
        ⟨["city", "store"], [["A", "S1"]]⟩ [7] none =
      (⟨"mean", some (buildGroupMap "mean" ⟨["city", "store"], [["A", "S1"]]⟩ [7]),
        some ["city", "store"], none, none⟩, none)) ∧
    ((⟨"mean", some (buildGroupMap "mean" ⟨["city", "store"], [["A", "S1"]]⟩ [7]),
        some ["city", "store"], none, none⟩ : GroupEstimate).cols =
      some (⟨["city", "store"], [["A", "S1"]]⟩ : Frame).cols) ∧
    (∀ kv ∈ buildGroupMap "mean" ⟨["city", "store"], [["A", "S1"]]⟩ [7],
      kv.1.length = (⟨["city", "store"], [["A", "S1"]]⟩ : Frame).cols.length) :=
  ⟨rfl,
    C10_key_length_invariant ⟨"mean", none, none, none, none⟩ _ _ [7] none _ rfl rfl⟩

/-- C3: on a fitted estimator, a query row whose full group key (ordered
tuple of its values in the fitted column order) is present in the group
lookup table yields that table's value, regardless of any default lookup
table — the default fields of the estimator are left unconstrained here. -/
theorem C3_exact_match_priority (e : GroupEstimate) (Xq Xp : Frame)
    (res : List (Option ℚ)) (msg : Option String)
    (gmap : List (List String × ℚ)) (cols : List String)
    (hp : GroupEstimate.predict e Xq = .ok (res, msg))
    (hg : e.group_map = some gmap) (hc : e.cols = some cols)
    (hrec : reconcile cols Xq = .ok Xp)
    (i : ℕ) (row : List String) (hrow : Xp.rows[i]? = some row)
    (v : ℚ) (hv : lookupA (keyOf cols cols row) gmap = some v) :
    res[i]? = some (some v) := by
  obtain ⟨gmap2, cols2, Xp2, hg2, hc2, hrec2, hres, -⟩ := predict_ok_state e Xq res msg hp
  rw [hg] at hg2
  rw [hc] at hc2
  have hgm := Option.some.inj hg2
  have hcm := Option.some.inj hc2
  subst hgm
  subst hcm
  rw [hrec] at hrec2
  have hXp := Except.ok.inj hrec2
  subst hXp
  rw [hres, List.getElem?_map, hrow]
  simp [resolveRow, hv]

/-- C3 witness: a fitted estimator whose group table knows key `("A",)`
and whose default table would also match returns the group value `15`. -/
theorem C3_exact_match_priority_witness :
    (GroupEstimate.predict
        ⟨"mean", some [(["A"], 15)], some ["city"], some "city", some [("A", 99)]⟩
        ⟨["city"], [["A"]]⟩ = .ok ([some 15], none)) ∧
    ((⟨["city"], [["A"]]⟩ : Frame).rows[0]? = some ["A"]) ∧
    (lookupA (keyOf ["city"] ["city"] ["A"]) [(["A"], (15 : ℚ))] = some 15) ∧
    ([some (15 : ℚ)] : List (Option ℚ))[0]? = some (some 15) :=
  ⟨rfl, by decide, by decide,
    C3_exact_match_priority
      ⟨"mean", some [(["A"], 15)], some ["city"], some "city", some [("A", 99)]⟩
      ⟨["city"], [["A"]]⟩ ⟨["city"], [["A"]]⟩ [some 15] none [(["A"], 15)] ["city"]
      rfl rfl rfl rfl 0 ["A"] (by decide) 15 (by decide)⟩

/-- C4: on an estimator fitted with a default category, a query row whose
full group key is absent from the group lookup table but whose value in
the default column is present in the default lookup table yields the
default table's value for that value. -/
theorem C4_default_fallback (e : GroupEstimate) (Xq Xp : Frame)
    (res : List (Option ℚ)) (msg : Option String)
    (gmap : List (List String × ℚ)) (cols : List String)
    (dm : List (String × ℚ)) (dcn : String)
    (hp : GroupEstimate.predict e Xq = .ok (res, msg))
    (hg : e.group_map = some gmap) (hc : e.cols = some cols)
    (hd : e.default_map = some dm) (hdc : e.default_category = some dcn)
    (hrec : reconcile cols Xq = .ok Xp)
    (i : ℕ) (row : List String) (hrow : Xp.rows[i]? = some row)
    (hmiss : lookupA (keyOf cols cols row) gmap = none)
    (w : ℚ) (hw : lookupA (valueAt cols row dcn) dm = some w) :
    res[i]? = some (some w) := by
  obtain ⟨gmap2, cols2, Xp2, hg2, hc2, hrec2, hres, -⟩ := predict_ok_state e Xq res msg hp
  rw [hg] at hg2
  rw [hc] at hc2
  have hgm := Option.some.inj hg2
  have hcm := Option.some.inj hc2
  subst hgm
  subst hcm
  rw [hrec] at hrec2
  have hXp := Except.ok.inj hrec2
  subst hXp
  rw [hres, List.getElem?_map, hrow]
  simp [resolveRow, hmiss, hd, hdc, hw]

/-- C4 witness: key `("A", "S2")` is unknown but city `"A"` has a default
estimate `12`, which is returned. -/
theorem C4_default_fallback_witness :
    (GroupEstimate.predict
        ⟨"mean", some [(["A", "S1"], 15)], some ["city", "store"], some "city", some [("A", 12)]⟩
        ⟨["city", "store"], [["A", "S2"]]⟩ = .ok ([some 12], none)) ∧
    (lookupA (keyOf ["city", "store"] ["city", "store"] ["A", "S2"])
        [(["A", "S1"], (15 : ℚ))] = none) ∧
    (lookupA (valueAt ["city", "store"] ["A", "S2"] "city") [("A", (12 : ℚ))] = some 12) ∧
    ([some (12 : ℚ)] : List (Option ℚ))[0]? = some (some 12) :=
  ⟨rfl, by decide, by decide,
    C4_default_fallback
      ⟨"mean", some [(["A", "S1"], 15)], some ["city", "store"], some "city", some [("A", 12)]⟩
      ⟨["city", "store"], [["A", "S2"]]⟩ ⟨["city", "store"], [["A", "S2"]]⟩
      [some 12] none [(["A", "S1"], 15)] ["city", "store"] [("A", 12)] "city"
      rfl rfl rfl rfl rfl rfl 0 ["A", "S2"] (by decide) (by decide)
      12 (by decide)⟩

/-- C5: each query row matched by neither the group lookup table nor the
default lookup table yields the not-a-number marker, and exactly when the
number N of such rows is positive, `predict` also emits the single
diagnostic line `"<N> missing groups were not present in the training
data."` (and no notice when N is zero). -/
theorem C5_missing_marker_and_notice (e : GroupEstimate) (Xq Xp : Frame)
    (res : List (Option ℚ)) (msg : Option String)
    (gmap : List (List String × ℚ)) (cols : List String)
    (hp : GroupEstimate.predict e Xq = .ok (res, msg))
    (hg : e.group_map = some gmap) (hc : e.cols = some cols)
    (hrec : reconcile cols Xq = .ok Xp) :
    (∀ (i : ℕ) (row : List String), Xp.rows[i]? = some row →
      lookupA (keyOf cols cols row) gmap = none →
      (∀ dm, e.default_map = some dm →
        lookupA (valueAt cols row (e.default_category.getD "")) dm = none) →
      res[i]? = some none) ∧
    (0 < (res.filter (fun r => r.isNone)).length →
      msg = some (missingMessage (res.filter (fun r => r.isNone)).length)) ∧
    ((res.filter (fun r => r.isNone)).length = 0 → msg = none) := by
  obtain ⟨gmap2, cols2, Xp2, hg2, hc2, hrec2, hres, hmsg⟩ := predict_ok_state e Xq res msg hp
  rw [hg] at hg2
  rw [hc] at hc2
  have hgm := Option.some.inj hg2
  have hcm := Option.some.inj hc2
  subst hgm
  subst hcm
  rw [hrec] at hrec2
  have hXp := Except.ok.inj hrec2
  subst hXp
  refine ⟨?_, ?_, ?_⟩
  · intro i row hrow hmiss hdm
    rw [hres, List.getElem?_map, hrow]
    simp only [Option.map_some']
    unfold resolveRow
    rw [hmiss]
    cases hd : e.default_map with
    | none => simp
    | some dm => simp [hdm dm hd]
  · intro hpos
    rw [hmsg, if_pos hpos]
  · intro hzero
    rw [hmsg, if_neg (by omega)]

/-- C5 witness: one known and one unknown city yield `[15, NaN]` and the
diagnostic reporting one missing group. -/
theorem C5_missing_marker_and_notice_witness :
    (GroupEstimate.predict ⟨"mean", some [(["A"], 15)], some ["city"], none, none⟩
        ⟨["city"], [["A"], ["C"]]⟩ =
      .ok ([some 15, none],
        some "1 missing groups were not present in the training data.")) ∧
    (lookupA (keyOf ["city"] ["city"] ["C"]) [(["A"], (15 : ℚ))] = none) ∧
    (([some 15, none] : List (Option ℚ))[1]? = some none) ∧
    (0 < (([some 15, none] : List (Option ℚ)).filter (fun r => r.isNone)).length) ∧
    (some "1 missing groups were not present in the training data." =
      some (missingMessage
        (([some 15, none] : List (Option ℚ)).filter (fun r => r.isNone)).length)) :=
  ⟨rfl, by decide,
    (C5_missing_marker_and_notice ⟨"mean", some [(["A"], 15)], some ["city"], none, none⟩
      ⟨["city"], [["A"], ["C"]]⟩ ⟨["city"], [["A"], ["C"]]⟩ [some 15, none]
      (some "1 missing groups were not present in the training data.")
      [(["A"], 15)] ["city"] rfl rfl rfl rfl).1 1 ["C"]
      (by decide) (by decide) (by intro dm hdm; cases hdm),
    by decide,
    (C5_missing_marker_and_notice ⟨"mean", some [(["A"], 15)], some ["city"], none, none⟩
      ⟨["city"], [["A"], ["C"]]⟩ ⟨["city"], [["A"], ["C"]]⟩ [some 15, none]
      (some "1 missing groups were not present in the training data.")
      [(["A"], 15)] ["city"] rfl rfl rfl rfl).2.1 (by decide)⟩

/-- C6: `predict` on a valid query returns one result per query row, and
position i of the output is the resolution of (reconciled) query row i —
output order matches input row order. -/
theorem C6_output_length_order (e : GroupEstimate) (Xq Xp : Frame)
    (res : List (Option ℚ)) (msg : Option String)
    (gmap : List (List String × ℚ)) (cols : List String)
    (hp : GroupEstimate.predict e Xq = .ok (res, msg))
    (hg : e.group_map = some gmap) (hc : e.cols = some cols)
    (hrec : reconcile cols Xq = .ok Xp) :
    res.length = Xq.rows.length ∧
    ∀ i : ℕ, res[i]? =
      (Xp.rows[i]?).map (resolveRow gmap e.default_map e.default_category cols) := by
  obtain ⟨gmap2, cols2, Xp2, hg2, hc2, hrec2, hres, -⟩ := predict_ok_state e Xq res msg hp
  rw [hg] at hg2
  rw [hc] at hc2
  have hgm := Option.some.inj hg2
  have hcm := Option.some.inj hc2
  subst hgm
  subst hcm
  rw [hrec] at hrec2
  have hXp := Except.ok.inj hrec2
  subst hXp
  constructor
  · rw [hres, List.length_map, reconcile_ok_length cols Xq Xp hrec]
  · intro i
    rw [hres, List.getElem?_map]

/-- C6 witness: a two-row query gives two results in row order. -/
theorem C6_output_length_order_witness :
    (GroupEstimate.predict ⟨"mean", some [(["A"], 15)], some ["city"], none, none⟩
        ⟨["city"], [["A"], ["C"]]⟩ =
      .ok ([some 15, none],
        some "1 missing groups were not present in the training data.")) ∧
    (([some 15, none] : List (Option ℚ)).length =
      (⟨["city"], [["A"], ["C"]]⟩ : Frame).rows.length) ∧
    (∀ i : ℕ, ([some 15, none] : List (Option ℚ))[i]? =
      ((⟨["city"], [["A"], ["C"]]⟩ : Frame).rows[i]?).map
        (resolveRow [(["A"], 15)] none none ["city"])) :=
  ⟨rfl,
    C6_output_length_order ⟨"mean", some [(["A"], 15)], some ["city"], none, none⟩
      ⟨["city"], [["A"], ["C"]]⟩ ⟨["city"], [["A"], ["C"]]⟩ [some 15, none]
      (some "1 missing groups were not present in the training data.")
      [(["A"], 15)] ["city"] rfl rfl rfl rfl⟩

/-- C8: on an estimator fitted with columns `cols`, a labelled query frame
whose column set equals the fitted set but is listed in a different order
predicts exactly the same output as the same rows presented in the fitted
(canonical) column order. -/
theorem C8_reordered_columns (e : GroupEstimate) (cols : List String) (Xq : Frame)
    (hc : e.cols = some cols) (hne : Xq.cols ≠ cols)
    (h1 : ∀ c ∈ Xq.cols, c ∈ cols) (h2 : ∀ c ∈ cols, c ∈ Xq.cols) :
    GroupEstimate.predict e Xq =
      GroupEstimate.predict e
        ⟨cols, Xq.rows.map (fun r => cols.map (valueAt Xq.cols r))⟩ := by
  unfold GroupEstimate.predict
  rw [hc]
  cases hg : e.group_map with
  | none => rfl
  | some gmap =>
    have hL : reconcile cols Xq =
        .ok ⟨cols, Xq.rows.map (fun r => cols.map (valueAt Xq.cols r))⟩ := by
      unfold reconcile
      rw [if_neg hne, if_pos ⟨h1, h2⟩]
    have hR : reconcile cols ⟨cols, Xq.rows.map (fun r => cols.map (valueAt Xq.cols r))⟩ =
        .ok ⟨cols, Xq.rows.map (fun r => cols.map (valueAt Xq.cols r))⟩ := by
      unfold reconcile
      rw [if_pos rfl]
    simp only [hL, hR]

/-- C8 witness: querying `(store, city)` order against a fit on
`(city, store)` matches the canonically ordered query. -/
theorem C8_reordered_columns_witness :
    ((⟨"mean", some [(["A", "S1"], 15)], some ["city", "store"], none, none⟩ :
        GroupEstimate).cols = some ["city", "store"]) ∧
    ((⟨["store", "city"], [["S1", "A"]]⟩ : Frame).cols ≠ ["city", "store"]) ∧
    GroupEstimate.predict
        ⟨"mean", some [(["A", "S1"], 15)], some ["city", "store"], none, none⟩
        ⟨["store", "city"], [["S1", "A"]]⟩ =
      GroupEstimate.predict
        ⟨"mean", some [(["A", "S1"], 15)], some ["city", "store"], none, none⟩
        ⟨["city", "store"],
          (⟨["store", "city"], [["S1", "A"]]⟩ : Frame).rows.map
            (fun r => ["city", "store"].map (valueAt ["store", "city"] r))⟩ :=
  ⟨rfl, by decide,
    C8_reordered_columns
      ⟨"mean", some [(["A", "S1"], 15)], some ["city", "store"], none, none⟩
      ["city", "store"] ⟨["store", "city"], [["S1", "A"]]⟩
      rfl (by decide) (by decide) (by decide)⟩

/-- C1 counterexample: the claim fails on the code. An estimator with a
previously successful fit (on city `A`) is refitted with a
`default_category` that is not a column; the call raises the
InvalidConfiguration error, yet the stored state is not what it was: the
default column is now set and the group lookup table's keys have been
rebuilt from the new training frame (`("B",)` instead of `("A",)`),
because lines 28-47 of the source mutate state before the line-51 check. -/
theorem C1_counterexample :
    (GroupEstimate.fit
        ((GroupEstimate.fit ⟨"mean", none, none, none, none⟩
          ⟨["city"], [["A"]]⟩ [1] none).1)
        ⟨["city"], [["B"]]⟩ [2] (some "nope")).2 =
      some "default_category must be one of the columns in X" ∧
    ((GroupEstimate.fit ⟨"mean", none, none, none, none⟩
        ⟨["city"], [["A"]]⟩ [1] none).1.default_category = none) ∧
    ((GroupEstimate.fit
        ((GroupEstimate.fit ⟨"mean", none, none, none, none⟩
          ⟨["city"], [["A"]]⟩ [1] none).1)
        ⟨["city"], [["B"]]⟩ [2] (some "nope")).1.default_category = some "nope") ∧
    ((GroupEstimate.fit ⟨"mean", none, none, none, none⟩
        ⟨["city"], [["A"]]⟩ [1] none).1.group_map.map (List.map Prod.fst) =
      some [["A"]]) ∧
    ((GroupEstimate.fit
        ((GroupEstimate.fit ⟨"mean", none, none, none, none⟩
          ⟨["city"], [["A"]]⟩ [1] none).1)
        ⟨["city"], [["B"]]⟩ [2] (some "nope")).1.group_map.map (List.map Prod.fst) =
      some [["B"]]) :=
  ⟨rfl, rfl, rfl, rfl, rfl⟩

/-- C1 as amended: a `fit` call failing with ShapeMismatch leaves the
estimator exactly as it was (the length check precedes every mutation),
but a call failing with InvalidConfiguration (a `default_category` not
among the training frame's columns) preserves only the default lookup
table and the aggregate kind: the grouping columns, default column, and
group lookup table have already been overwritten with the new fit's
values when the error is raised. -/
theorem C1_failed_fit_state (e e' : GroupEstimate) (X : Frame) (y : List ℚ)
    (dc : Option String) (err : String)
    (h : GroupEstimate.fit e X y dc = (e', some err)) :
    (err = "X and y must have the same length" → e' = e) ∧
    (err = "default_category must be one of the columns in X" →
      e'.default_map = e.default_map ∧ e'.estimate = e.estimate ∧
      e'.cols = some X.cols ∧ e'.default_category = dc ∧
      e'.group_map = some (buildGroupMap e.estimate X y)) := by
  unfold GroupEstimate.fit at h
  split at h
  · simp only [Prod.mk.injEq] at h
    obtain ⟨h1, h2⟩ := h
    constructor
    · intro _
      exact h1.symm
    · intro hErr
      rw [hErr] at h2
      exact absurd (Option.some.inj h2) (by decide)
  · split at h
    · split at h
      · simp only [Prod.mk.injEq] at h
        exact absurd h.2 (by simp)
      · simp only [Prod.mk.injEq] at h
        obtain ⟨h1, h2⟩ := h
        constructor
        · intro hErr
          rw [hErr] at h2
          exact absurd (Option.some.inj h2) (by decide)
        · intro _
          rw [← h1]
          simp
    · simp only [Prod.mk.injEq] at h
      exact absurd h.2 (by simp)

/-- C1 witness: a failing refit with a bad `default_category` on a
previously fitted estimator keeps only the old default table while the
grouping columns and group table are already replaced. -/
theorem C1_failed_fit_state_witness :
    (GroupEstimate.fit ⟨"mean", some [(["A"], 1)], some ["city"], none, none⟩
        ⟨["city"], [["B"]]⟩ [2] (some "nope") =
      (⟨"mean", some (buildGroupMap "mean" ⟨["city"], [["B"]]⟩ [2]),
          some ["city"], some "nope", none⟩,
        some "default_category must be one of the columns in X")) ∧
    (("default_category must be one of the columns in X" =
        "X and y must have the same length" →
      (⟨"mean", some (buildGroupMap "mean" ⟨["city"], [["B"]]⟩ [2]),
          some ["city"], some "nope", none⟩ : GroupEstimate) =
        ⟨"mean", some [(["A"], 1)], some ["city"], none, none⟩) ∧
    ("default_category must be one of the columns in X" =
        "default_category must be one of the columns in X" →
      (⟨"mean", some (buildGroupMap "mean" ⟨["city"], [["B"]]⟩ [2]),
          some ["city"], some "nope", none⟩ : GroupEstimate).default_map =
          (⟨"mean", some [(["A"], 1)], some ["city"], none, none⟩ :
            GroupEstimate).default_map ∧
        (⟨"mean", some (buildGroupMap "mean" ⟨["city"], [["B"]]⟩ [2]),
          some ["city"], some "nope", none⟩ : GroupEstimate).estimate =
          (⟨"mean", some [(["A"], 1)], some ["city"], none, none⟩ :
            GroupEstimate).estimate ∧
        (⟨"mean", some (buildGroupMap "mean" ⟨["city"], [["B"]]⟩ [2]),
          some ["city"], some "nope", none⟩ : GroupEstimate).cols =
          some (⟨["city"], [["B"]]⟩ : Frame).cols ∧
        (⟨"mean", some (buildGroupMap "mean" ⟨["city"], [["B"]]⟩ [2]),
          some ["city"], some "nope", none⟩ : GroupEstimate).default_category =
          some "nope" ∧
        (⟨"mean", some (buildGroupMap "mean" ⟨["city"], [["B"]]⟩ [2]),
          some ["city"], some "nope", none⟩ : GroupEstimate).group_map =
          some (buildGroupMap
            (⟨"mean", some [(["A"], 1)], some ["city"], none, none⟩ :
              GroupEstimate).estimate ⟨["city"], [["B"]]⟩ [2]))) :=
  ⟨rfl,
    C1_failed_fit_state ⟨"mean", some [(["A"], 1)], some ["city"], none, none⟩ _
      ⟨["city"], [["B"]]⟩ [2] (some "nope")
      "default_category must be one of the columns in X" rfl⟩
